import Mathlib

/-!
Verification of the row-to-record transformation pipeline of
`verizonmessages2sms.py` (conversion of a Verizon Messages database to
SMS Backup XML).  The Python source is shallowly embedded below:

* `normalize_phone_num` embeds the fallback-mode normalizer
  (`src/verizonmessages2sms.py` lines 111-116, the branch taken when the
  `phonenumbers` library is unavailable);
* `created_on_to_timestamp_ms` embeds the timestamp converter (lines 69-76);
* `message_row_to_attrs` embeds the record assembler (lines 118-160);
* `read_contacts` embeds the contacts loader (lines 162-177);
* `run_pipeline` embeds the transform phase of `main` (lines 233-252).

Python dicts whose values may be `None` are embedded as association lists
over `Option String`, so "key present with value None" and "key absent"
remain distinguishable.  Python dynamic typing at the one point where it
matters (`_read_contacts` can return the `int` 1 instead of a dict, and
`dict.get` on that value raises `AttributeError`) is embedded with a sum
type and the `Except` monad.  The external collaborators `time.localtime`
(timezone dependent) is a parameter, and `time.strftime` /
`str.replace` are embedded for the C locale and the exact format string
the program uses.
-/

/-- Embeds `time.struct_time` (the fields the program reads):
`tm_mon` is 1-12, `tm_mday` 1-31, `tm_hour` 0-23, `tm_min`/`tm_sec` 0-59. -/
structure Tm where
  tm_year : Nat
  tm_mon : Nat
  tm_mday : Nat
  tm_hour : Nat
  tm_min : Nat
  tm_sec : Nat
deriving DecidableEq

/-- One row of the `Message` table, with the columns the program reads.
`CreatedOn` is a count of 100-nanosecond ticks since 0001-01-01 and is
non-negative in well-formed stores. -/
structure MessageRow where
  CreatedOn : Nat
  Sender : String
  ToAddress : String
  SourceType : Int
  Body : String
  IsRead : Nat
  IsLocked : Nat
deriving DecidableEq

/-- The two warning diagnostics `_message_row_to_attrs` can log
(lines 132 and 140 of the source). -/
inductive Warn where
  | unrecognizedSourceType (st : Int)
  | contactMiss (addr : String)
deriving DecidableEq, Repr

/-- The one Python runtime error reachable in the embedded fragment:
calling `.get` on the `int` that `_read_contacts` returns for a malformed
contacts file. -/
inductive PyErr where
  | attributeError
deriving DecidableEq, Repr

/-- `re.sub("[^0-9]+", "", phonestr)`: drop every non-digit character. -/
def pyStripNonDigits (s : String) : String :=
  String.mk (s.data.filter Char.isDigit)

/-- Fallback-mode `_normalize_phone_num` (source lines 111-116, the
definition used when the `phonenumbers` library is absent):
strip non-digits, prepend `1` when exactly 10 digits remain and the region
is `US`, prepend `+` unconditionally.  `region=None` is `none`. -/
def normalize_phone_num (phonestr : String) (region : Option String) : String :=
  let onlynum := pyStripNonDigits phonestr
  let onlynum :=
    if onlynum.length = 10 ∧ region = some ("US") then "1" ++ onlynum else onlynum
  "+" ++ onlynum

/-- The timestamp conversion `created_on / 10000 - 62167219200000`
(source lines 69-76) under Python 2 semantics, where `/` on ints is floor
division; for the non-negative `CreatedOn` values of well-formed stores this
is truncating integer division. -/
def created_on_to_timestamp_ms (created_on : Nat) : Int :=
  ((created_on / 10000 : Nat) : Int) - 62167219200000

/-- The same expression under CPython 3, where `/` is IEEE-754 double true
division (correctly rounded to nearest).  The model is exact for inputs
whose quotient lies in the binade `[2^45, 2^46)`, where doubles are spaced
`2^-7`: the value returned is the double times 128.  Round-half-up is used,
which agrees with round-to-nearest-even at every non-tie point; the inputs
used below are not ties. -/
def py3_quotient_times128 (created_on : Nat) : Nat :=
  (created_on * 256 + 10000) / 20000

/-- The record's `date` attribute under Python 3:
`int(created_on / 10000 - 62167219200000)`.  For quotients in
`[2^45, 2^46)` the float subtraction of the integer constant is exact
(both operands and the difference are multiples of `2^-7` small enough to
be representable), and `int()` truncates toward zero (`Int.tdiv`). -/
def py3_date_ms (created_on : Nat) : Int :=
  Int.tdiv ((py3_quotient_times128 created_on : Int) - 62167219200000 * 128) 128

/-- Month abbreviations produced by C-locale `strftime` `%b`
(`tm_mon` is 1-12). -/
def monthAbbr (m : Nat) : String :=
  match m with
  | 1 => "Jan" | 2 => "Feb" | 3 => "Mar" | 4 => "Apr"
  | 5 => "May" | 6 => "Jun" | 7 => "Jul" | 8 => "Aug"
  | 9 => "Sep" | 10 => "Oct" | 11 => "Nov" | 12 => "Dec"
  | _ => ""

/-- Two-digit zero-padded decimal field (`%d`, `%I`, `%M`, `%S`; all of
these are below 100 in a `struct_time`). -/
def pad2 (n : Nat) : List Char :=
  [Nat.digitChar (n / 10 % 10), Nat.digitChar (n % 10)]

/-- The 12-hour clock value printed by `%I` (01-12). -/
def hour12 (h : Nat) : Nat :=
  if h % 12 = 0 then 12 else h % 12

/-- Decimal digits of `n`, most significant first (`%Y` prints the year
without extra padding for years at or above 1000).  Structural recursion on
a fuel argument so that the definition evaluates inside the kernel. -/
def natDecimalCharsFuel : Nat → Nat → List Char
  | 0, _ => []
  | fuel + 1, n =>
    if n < 10 then [Nat.digitChar n]
    else natDecimalCharsFuel fuel (n / 10) ++ [Nat.digitChar (n % 10)]

/-- Decimal digits of `n`, most significant first. -/
def natDecimalChars (n : Nat) : List Char :=
  natDecimalCharsFuel (n + 1) n

/-- C-locale `time.strftime("%b %d, %Y %I:%M:%S %p", t)` as a character
list. -/
def strftimeFmt (t : Tm) : List Char :=
  (monthAbbr t.tm_mon).data ++ ' ' :: pad2 t.tm_mday ++ ',' :: ' ' ::
    natDecimalChars t.tm_year ++ ' ' :: pad2 (hour12 t.tm_hour) ++ ':' ::
    pad2 t.tm_min ++ ':' :: pad2 t.tm_sec ++ ' ' ::
    (if t.tm_hour < 12 then "AM" else "PM").data

/-- Python `str.replace(" 0", " ")`: scan left to right, replace every
non-overlapping occurrence of space-zero by a single space. -/
def stripSpaceZero : List Char → List Char
  | [] => []
  | [c] => [c]
  | c1 :: c2 :: rest =>
    if c1 = ' ' ∧ c2 = '0' then ' ' :: stripSpaceZero rest
    else c1 :: stripSpaceZero (c2 :: rest)

/-- The `readable_date` attribute value (source line 158):
`time.strftime("%b %d, %Y %I:%M:%S %p", sms_time).replace(" 0", " ")`. -/
def readableDate (t : Tm) : String :=
  String.mk (stripSpaceZero (strftimeFmt t))

/-- A contact table as `_read_contacts` builds it.  `main` can also end up
holding the `int` 1 that `_read_contacts` returns on a malformed line, so
the value bound to `num2name` is `Sum Nat (List (String × String))`.
The list is kept with the most recent insertion first; only `dict.get`
observes it, for which this agrees with Python dict update semantics. -/
abbrev N2N := Sum Nat (List (String × String))

/-- `dict.get(key)` on the embedded contact table: the most recently
inserted binding of `key`, or `none`. -/
def dictGet (t : List (String × String)) (k : String) : Option String :=
  (t.find? (fun p => p.1 == k)).map (fun p => p.2)

/-- `sender in senders` (source line 125): false when no sender set was
supplied, membership otherwise. -/
def senderMatch (senders : Option (List String)) (sender : String) : Bool :=
  match senders with
  | none => false
  | some ss => ss.contains sender

/-- Lines 125-134 of the source: treat as sent when `SourceType == 3` or
the normalized sender is in the sender set (then the counterpart is the
normalized `ToAddress`); otherwise treat as received (counterpart is the
sender), warning when `SourceType` is not 2.  Returns
(`sms_type`, `address`, warnings). -/
def classify (source_type : Int) (sender toaddress : String)
    (senders : Option (List String)) : String × String × List Warn :=
  if source_type == 3 || senderMatch senders sender then
    (("2" : String), toaddress, ([] : List Warn))
  else
    (("1" : String), sender,
      if source_type != 2 then [Warn.unrecognizedSourceType source_type] else [])

/-- Lines 136-141 of the source: resolve the counterpart address against
the optional contact table.  `none` means no `--contacts` option; a
`Sum.inl` table is the `int` that a malformed contacts file produced, on
which the attribute access `num2name.get` raises `AttributeError`. -/
def contactResolve (num2name : Option N2N) (address : String) :
    Except PyErr (Option String × List Warn) :=
  match num2name with
  | none => Except.ok (none, [])
  | some (Sum.inl _) => Except.error PyErr.attributeError
  | some (Sum.inr t) =>
    match dictGet t address with
    | some nm => Except.ok (some nm, [])
    | none => Except.ok (some ("(Unknown)"), [Warn.contactMiss address])

/-- Contact resolution restricted to the values `num2name` takes when the
contacts file was absent or well-formed; `contactResolve` then never
raises and returns exactly this (`contactResolve_map_inr` below). -/
def contact_ok (tbl : Option (List (String × String))) (address : String) :
    Option String × List Warn :=
  match tbl with
  | none => (none, [])
  | some t =>
    match dictGet t address with
    | some nm => (some nm, [])
    | none => (some ("(Unknown)"), [Warn.contactMiss address])

/-- The dict literal of lines 143-160 of the source, given the values of
the locals it reads (key order preserved; values are `Option String`
because `contact_name` can be `None`). -/
def mk_sms_attrs (sms_date : Int) (sms_time : Tm) (sms_type address : String)
    (row : MessageRow) (contact_name : Option String) :
    List (String × Option String) :=
  [(("protocol" : String), some ("0")),
   (("address" : String), some address),
   (("date" : String), some (toString sms_date)),
   (("type" : String), some sms_type),
   (("subject" : String), some ("null")),
   (("body" : String), some row.Body),
   (("toa" : String), some ("null")),
   (("sc_toa" : String), some ("null")),
   (("service_center" : String), some ("null")),
   (("read" : String), some (toString row.IsRead)),
   (("status" : String), some ("-1")),
   (("locked" : String), some (toString row.IsLocked)),
   (("date_sent" : String), some (toString sms_date)),
   (("readable_date" : String), some (readableDate sms_time)),
   (("contact_name" : String), contact_name)]

/-- `_message_row_to_attrs` (source lines 118-160).  The returned
association list embeds the Python dict literal; the second component
lists the warnings logged, in order (classification warning first, then
the contact-miss warning).  `localtime` is the timezone-dependent
`time.localtime`, supplied as a parameter. -/
def message_row_to_attrs (localtime : Int → Tm) (row : MessageRow)
    (num2name : Option N2N) (region : Option String)
    (senders : Option (List String)) :
    Except PyErr (List (String × Option String) × List Warn) := do
  let sms_date := created_on_to_timestamp_ms row.CreatedOn
  let sms_time := localtime (Int.fdiv sms_date 1000)
  let sender := normalize_phone_num row.Sender region
  let c := classify row.SourceType sender
    (normalize_phone_num row.ToAddress region) senders
  let cres ← contactResolve num2name c.2.1
  Except.ok (mk_sms_attrs sms_date sms_time c.1 c.2.1 row cres.1, c.2.2 ++ cres.2)

/-- Python dict lookup on the assembled record (keys are distinct). -/
def getAttr (attrs : List (String × Option String)) (k : String) :
    Option (Option String) :=
  (attrs.find? (fun p => p.1 == k)).map (fun p => p.2)

/-- Python `\s` whitespace characters. -/
def isPySpace (c : Char) : Bool :=
  c == ' ' || c == '\t' || c == '\n' || c == '\r' ||
    c == Char.ofNat 11 || c == Char.ofNat 12

/-- `re.match(r"^\s*(?:#|$)", line)` for single lines (at most one final
newline): after leading whitespace the line is exhausted or starts a
comment. -/
def isBlankOrComment (line : List Char) : Bool :=
  match line.dropWhile isPySpace with
  | [] => true
  | c :: _ => c == '#'

/-- `line.split(None, 1)`: skip leading whitespace; the first token is the
run of non-whitespace; the remainder (with its own leading whitespace
removed) is the second element when non-empty. -/
def splitNone1 (line : List Char) : List (List Char) :=
  let rest := line.dropWhile isPySpace
  if rest.isEmpty then []
  else
    let tok := rest.takeWhile (fun c => !isPySpace c)
    let after := (rest.dropWhile (fun c => !isPySpace c)).dropWhile isPySpace
    if after.isEmpty then [tok] else [tok, after]

/-- The loop body of `_read_contacts` (source lines 162-177): skip blank
and comment lines; a line that does not split into a number and a name
makes the function `return 1` (the `int` sentinel); otherwise store the
normalized number with the name.  New bindings are consed, so `dictGet`
sees the latest one, matching dict assignment. -/
def read_contacts_go (region : Option String) (acc : List (String × String)) :
    List (List Char) → N2N
  | [] => Sum.inr acc
  | line :: rest =>
    if isBlankOrComment line then read_contacts_go region acc rest
    else
      match splitNone1 line with
      | [number, nm] =>
        read_contacts_go region
          ((normalize_phone_num (String.mk number) region, String.mk nm) :: acc) rest
      | _ => Sum.inl 1

/-- `_read_contacts(contacts_file, region=None)`.  The `region` parameter
defaults to `None` in the source; callers that omit it pass `none` here. -/
def read_contacts (lines : List (List Char)) (region : Option String) : N2N :=
  read_contacts_go region [] lines

/-- The transform phase of `main` (source lines 233-252): normalize the
`--sender` arguments with the configured region, load the contacts file —
note the source calls `_read_contacts(args.contacts)` WITHOUT passing
`args.region`, so contact keys are normalized with `region=None` — and map
`_message_row_to_attrs` over the rows, stopping at the first raised
error. -/
def run_pipeline (localtime : Int → Tm) (contactLines : Option (List (List Char)))
    (rows : List MessageRow) (region : Option String)
    (rawSenders : Option (List String)) :
    Except PyErr (List (List (String × Option String) × List Warn)) :=
  let senders := rawSenders.map (List.map (fun s => normalize_phone_num s region))
  let num2name : Option N2N := contactLines.map (fun ls => read_contacts ls none)
  rows.mapM (fun r => message_row_to_attrs localtime r num2name region senders)

/-- A fixed `time.localtime` used for concrete inputs: every instant maps
to 1970-01-01 00:00:00 (what UTC `localtime` yields at epoch 0). -/
def localtime0 : Int → Tm := fun _ => ⟨1970, 1, 1, 0, 0, 0⟩

/-- Python-truthiness test used below to count the SourceType warnings. -/
def is_unrecognized_warn (w : Warn) : Bool :=
  match w with
  | Warn.unrecognizedSourceType _ => true
  | _ => false

/-- Keep exactly the digit characters of a line, in order. -/
def keepDigits : List Char → List Char
  | [] => []
  | c :: cs => if Char.isDigit c then c :: keepDigits cs else keepDigits cs

/-- Refinement comparison definition, written from the spec's words for
fallback-mode normalization (spec §4.3): "strip all non-digit characters;
if exactly 10 digits remain and the region is US, prepend a 1; prepend +
to the result unconditionally". -/
def normalize_phone_num_spec (s : String) (region : Option String) : String :=
  let digits := keepDigits s.data
  let digits :=
    if digits.length = 10 ∧ region = some ("US") then '1' :: digits else digits
  String.mk ('+' :: digits)

/-- A two-digit field with its leading zero removed when below ten. -/
def unpad2 (n : Nat) : List Char :=
  if n < 10 then [Nat.digitChar n] else pad2 n

/-- What line 158 of the source actually produces for in-range
`struct_time` values: the `strftime` output with the leading zero of the
day-of-month AND of the 12-hour field removed (every zero that follows a
space is stripped by `replace(" 0", " ")`). -/
def readableDateStripped (t : Tm) : String :=
  String.mk ((monthAbbr t.tm_mon).data ++ ' ' :: unpad2 t.tm_mday ++ ',' :: ' ' ::
    natDecimalChars t.tm_year ++ ' ' :: unpad2 (hour12 t.tm_hour) ++ ':' ::
    pad2 t.tm_min ++ ':' :: pad2 t.tm_sec ++ ' ' ::
    (if t.tm_hour < 12 then "AM" else "PM").data)

lemma contactResolve_map_inr (tbl : Option (List (String × String)))
    (address : String) :
    contactResolve (Option.map Sum.inr tbl) address =
      Except.ok (contact_ok tbl address) := by
  cases tbl with
  | none => rfl
  | some t =>
    cases h : dictGet t address with
    | none => simp [contactResolve, contact_ok, h]
    | some nm => simp [contactResolve, contact_ok, h]

/-- With an absent or well-formed contact table the assembler never raises
and produces exactly the dict built from the classifier and resolver
outputs. -/
lemma message_row_to_attrs_ok (localtime : Int → Tm) (row : MessageRow)
    (tbl : Option (List (String × String))) (region : Option String)
    (senders : Option (List String)) :
    message_row_to_attrs localtime row (Option.map Sum.inr tbl) region senders =
      Except.ok
        (mk_sms_attrs (created_on_to_timestamp_ms row.CreatedOn)
          (localtime (Int.fdiv (created_on_to_timestamp_ms row.CreatedOn) 1000))
          (classify row.SourceType (normalize_phone_num row.Sender region)
            (normalize_phone_num row.ToAddress region) senders).1
          (classify row.SourceType (normalize_phone_num row.Sender region)
            (normalize_phone_num row.ToAddress region) senders).2.1
          row
          (contact_ok tbl
            (classify row.SourceType (normalize_phone_num row.Sender region)
              (normalize_phone_num row.ToAddress region) senders).2.1).1,
         (classify row.SourceType (normalize_phone_num row.Sender region)
            (normalize_phone_num row.ToAddress region) senders).2.2 ++
          (contact_ok tbl
            (classify row.SourceType (normalize_phone_num row.Sender region)
              (normalize_phone_num row.ToAddress region) senders).2.1).2) := by
  simp [message_row_to_attrs, contactResolve_map_inr, bind, Except.bind]

lemma getAttr_type (sms_date : Int) (sms_time : Tm) (sms_type address : String)
    (row : MessageRow) (contact_name : Option String) :
    getAttr (mk_sms_attrs sms_date sms_time sms_type address row contact_name)
      ("type") = some (some sms_type) := rfl

lemma getAttr_address (sms_date : Int) (sms_time : Tm) (sms_type address : String)
    (row : MessageRow) (contact_name : Option String) :
    getAttr (mk_sms_attrs sms_date sms_time sms_type address row contact_name)
      ("address") = some (some address) := rfl

lemma getAttr_readable_date (sms_date : Int) (sms_time : Tm)
    (sms_type address : String) (row : MessageRow) (contact_name : Option String) :
    getAttr (mk_sms_attrs sms_date sms_time sms_type address row contact_name)
      ("readable_date") = some (some (readableDate sms_time)) := rfl

lemma getAttr_contact_name (sms_date : Int) (sms_time : Tm)
    (sms_type address : String) (row : MessageRow) (contact_name : Option String) :
    getAttr (mk_sms_attrs sms_date sms_time sms_type address row contact_name)
      ("contact_name") = some contact_name := rfl

lemma filter_idem (p : Char → Bool) (l : List Char) :
    (l.filter p).filter p = l.filter p := by
  induction l with
  | nil => rfl
  | cons c cs ih =>
    rcases h : p c with _ | _ <;> simp [List.filter_cons, h, ih]

/-- Characterization of the fallback normalizer at the character level. -/
lemma normalize_phone_num_data (s : String) (r : Option String) :
    (normalize_phone_num s r).data =
      '+' :: (if (s.data.filter Char.isDigit).length = 10 ∧ r = some ("US")
              then '1' :: s.data.filter Char.isDigit
              else s.data.filter Char.isDigit) := by
  simp only [normalize_phone_num, pyStripNonDigits]
  by_cases h : (s.data.filter Char.isDigit).length = 10 ∧ r = some ("US")
  · rw [if_pos (show (String.mk (s.data.filter Char.isDigit)).length = 10 ∧
          r = some ("US") from h),
        if_pos h, String.data_append, String.data_append]
    rfl
  · rw [if_neg (show ¬((String.mk (s.data.filter Char.isDigit)).length = 10 ∧
          r = some ("US")) from h),
        if_neg h, String.data_append]
    rfl

/-- C3, counterexample.  The claim states that in fallback mode
`normalize(n, region) = n` for every canonical `+`-prefixed digit string,
"including 10-digit canonical numbers with region US".  It is false there:
the already-canonical 10-digit number `+5551234567` has its digits counted
after the `+` is stripped, so the US rule fires again and prepends a `1`. -/
theorem C3_cex_fallback_us_ten_digit :
    normalize_phone_num ("+5551234567") (some ("US")) = "+15551234567" ∧
    normalize_phone_num ("+5551234567") (some ("US")) ≠ "+5551234567" := by
  constructor
  · decide
  · decide

/-- C3, amended.  Fallback-mode normalization is idempotent under
composition for every input, and a canonical `+`-prefixed digit string is
a fixed point unless it has exactly 10 digits and the region is US (in
which case a `1` is prepended, as the counterexample shows). -/
theorem C3_fallback_idempotent :
    (∀ (s : String) (r : Option String),
      normalize_phone_num (normalize_phone_num s r) r = normalize_phone_num s r) ∧
    (∀ (l : List Char) (r : Option String), (∀ c ∈ l, Char.isDigit c = true) →
      ¬(l.length = 10 ∧ r = some ("US")) →
      normalize_phone_num (String.mk ('+' :: l)) r = String.mk ('+' :: l)) := by
  have hplus : Char.isDigit '+' = false := rfl
  have hone : Char.isDigit '1' = true := rfl
  constructor
  · intro s r
    apply String.ext
    rw [normalize_phone_num_data, normalize_phone_num_data s r]
    by_cases h : (s.data.filter Char.isDigit).length = 10 ∧ r = some ("US")
    · rw [if_pos h]
      rw [List.filter_cons, List.filter_cons, hplus, hone]
      simp only [if_true, if_false, Bool.false_eq_true, filter_idem]
      rw [if_neg (by simp [h.1])]
    · rw [if_neg h]
      rw [List.filter_cons, hplus]
      simp only [if_false, Bool.false_eq_true, filter_idem]
      rw [if_neg h]
  · intro l r hdig hne
    apply String.ext
    rw [normalize_phone_num_data]
    have hl : (String.mk ('+' :: l)).data.filter Char.isDigit = l := by
      rw [List.filter_cons, hplus]
      simp only [if_false, Bool.false_eq_true]
      exact List.filter_eq_self.mpr hdig
    rw [hl, if_neg hne]

/-- C3, witness for the amended theorem: the composed normalization of a
formatted US number is stable, and an 11-digit canonical number is a fixed
point. -/
theorem C3_fallback_idempotent_w :
    normalize_phone_num
        (normalize_phone_num ("(555) 123-4567") (some ("US"))) (some ("US")) =
      normalize_phone_num ("(555) 123-4567") (some ("US")) ∧
    normalize_phone_num (String.mk ('+' :: ("15551234567").data)) (some ("US")) =
      String.mk ('+' :: ("15551234567").data) :=
  ⟨C3_fallback_idempotent.1 ("(555) 123-4567") (some ("US")),
   C3_fallback_idempotent.2 ("15551234567").data (some ("US"))
     (by decide) (by decide)⟩

lemma keepDigits_eq_filter (l : List Char) :
    keepDigits l = l.filter Char.isDigit := by
  induction l with
  | nil => rfl
  | cons c cs ih =>
    rcases h : Char.isDigit c with _ | _ <;> simp [keepDigits, List.filter_cons, h, ih]

/-- C9.  The fallback normalizer implements exactly the spec's algorithm
(strip non-digits; prepend `1` when 10 digits remain and the region is US;
prepend `+`), and the spec's concrete example holds. -/
theorem C9_fallback_normalizer_matches_spec :
    (∀ (s : String) (r : Option String),
      normalize_phone_num s r = normalize_phone_num_spec s r) ∧
    normalize_phone_num ("(555) 123-4567") (some ("US")) = "+15551234567" := by
  constructor
  · intro s r
    apply String.ext
    rw [normalize_phone_num_data]
    simp only [normalize_phone_num_spec, keepDigits_eq_filter]
  · decide

lemma strip_cons_ne_space (c : Char) (hc : c ≠ ' ') (l : List Char) :
    stripSpaceZero (c :: l) = c :: stripSpaceZero l := by
  cases l with
  | nil => rfl
  | cons c2 rest =>
    simp only [stripSpaceZero]
    rw [if_neg (fun h => hc h.1)]

lemma strip_space_zero_cons (l : List Char) :
    stripSpaceZero (' ' :: '0' :: l) = ' ' :: stripSpaceZero l := by
  simp [stripSpaceZero]

lemma strip_space_ne_zero (c : Char) (hc : c ≠ '0') (l : List Char) :
    stripSpaceZero (' ' :: c :: l) = ' ' :: stripSpaceZero (c :: l) := by
  simp only [stripSpaceZero]
  rw [if_neg (fun h => hc h.2)]

lemma strip_clean_append (xs ys : List Char) (h : ∀ c ∈ xs, c ≠ ' ') :
    stripSpaceZero (xs ++ ys) = xs ++ stripSpaceZero ys := by
  induction xs with
  | nil => rfl
  | cons c xs ih =>
    rw [List.cons_append, strip_cons_ne_space c (h c (by simp)) _,
      ih (fun d hd => h d (by simp [hd])), List.cons_append]

lemma digitChar_ne_space : ∀ k, k < 10 → Nat.digitChar k ≠ ' ' := by decide

lemma digitChar_ne_zero : ∀ k, 1 ≤ k → k < 10 → Nat.digitChar k ≠ '0' := by decide

lemma pad2_ne_space (n : Nat) : ∀ c ∈ pad2 n, c ≠ ' ' := by
  intro c hc
  rcases (by simpa [pad2] using hc :
      c = Nat.digitChar (n / 10 % 10) ∨ c = Nat.digitChar (n % 10)) with h | h <;>
    subst h <;> exact digitChar_ne_space _ (Nat.mod_lt _ (by omega))

lemma natDecimalCharsFuel_spec : ∀ fuel n, n < fuel →
    ∃ c cs, natDecimalCharsFuel fuel n = c :: cs ∧ (1 ≤ n → c ≠ '0') ∧
      ∀ x ∈ c :: cs, x ≠ ' ' := by
  intro fuel
  induction fuel with
  | zero => intro n h; omega
  | succ fuel ih =>
    intro n hn
    by_cases h10 : n < 10
    · refine ⟨Nat.digitChar n, [], by simp [natDecimalCharsFuel, h10], ?_, ?_⟩
      · intro h1
        exact digitChar_ne_zero n h1 h10
      · intro x hx
        rw [List.mem_singleton] at hx
        subst hx
        exact digitChar_ne_space n h10
    · have hdiv : n / 10 < fuel := by omega
      obtain ⟨d, ds, heq, hd0, hds⟩ := ih (n / 10) hdiv
      refine ⟨d, ds ++ [Nat.digitChar (n % 10)], ?_, ?_, ?_⟩
      · simp [natDecimalCharsFuel, h10, heq]
      · intro _
        exact hd0 (by omega)
      · intro y hy
        rcases List.mem_cons.mp hy with h | h
        · subst h
          exact hds _ (by simp)
        · rcases List.mem_append.mp h with h2 | h2
          · exact hds y (by simp [h2])
          · rw [List.mem_singleton] at h2
            subst h2
            exact digitChar_ne_space _ (Nat.mod_lt _ (by omega))

lemma natDecimalChars_spec (n : Nat) (hn : 1 ≤ n) :
    ∃ c cs, natDecimalChars n = c :: cs ∧ c ≠ '0' ∧ ∀ x ∈ c :: cs, x ≠ ' ' := by
  obtain ⟨c, cs, h, h0, hs⟩ := natDecimalCharsFuel_spec (n + 1) n (by omega)
  exact ⟨c, cs, h, h0 hn, hs⟩


lemma strip_space_pad2_lt (n : Nat) (hn : n < 10) (l : List Char) :
    stripSpaceZero (' ' :: (pad2 n ++ l)) =
      ' ' :: Nat.digitChar n :: stripSpaceZero l := by
  have h1 : n / 10 % 10 = 0 := by omega
  have h2 : n % 10 = n := by omega
  have h0 : Nat.digitChar 0 = '0' := rfl
  simp only [pad2, h1, h2, h0, List.cons_append, List.nil_append]
  rw [strip_space_zero_cons, strip_cons_ne_space _ (digitChar_ne_space n hn)]

lemma strip_space_pad2_ge (n : Nat) (h10 : 10 ≤ n) (h100 : n < 100) (l : List Char) :
    stripSpaceZero (' ' :: (pad2 n ++ l)) = ' ' :: (pad2 n ++ stripSpaceZero l) := by
  have hq : n / 10 % 10 = n / 10 := by omega
  have hqlt : n / 10 < 10 := by omega
  have hq1 : 1 ≤ n / 10 := by omega
  simp only [pad2, hq, List.cons_append, List.nil_append]
  rw [strip_space_ne_zero _ (digitChar_ne_zero _ hq1 hqlt),
      strip_cons_ne_space _ (digitChar_ne_space _ hqlt),
      strip_cons_ne_space _ (digitChar_ne_space _ (Nat.mod_lt n (by omega)))]

lemma strip_space_ndc (n : Nat) (hn : 1 ≤ n) (l : List Char) :
    stripSpaceZero (' ' :: (natDecimalChars n ++ l)) =
      ' ' :: (natDecimalChars n ++ stripSpaceZero l) := by
  obtain ⟨c, cs, heq, h0, hs⟩ := natDecimalChars_spec n hn
  rw [heq]
  simp only [List.cons_append]
  rw [strip_space_ne_zero c h0, strip_cons_ne_space c (hs c (by simp)),
      strip_clean_append cs l (fun x hx => hs x (by simp [hx]))]

lemma monthAbbr_ne_space : ∀ m, m < 13 → ∀ c ∈ (monthAbbr m).data, c ≠ ' ' := by
  decide

lemma hour12_pos (h : Nat) : 1 ≤ hour12 h := by
  unfold hour12
  split <;> omega

lemma hour12_le (h : Nat) : hour12 h ≤ 12 := by
  unfold hour12
  split <;> omega

/-- What `replace(" 0", " ")` does to the whole `strftime` output for
in-range `struct_time` fields: both the day-of-month and the 12-hour
leading zeros are stripped, everything else is untouched. -/
lemma readableDate_eq_stripped (t : Tm) (hmon : t.tm_mon ≤ 12)
    (hday : t.tm_mday ≤ 31) (hyear : 1 ≤ t.tm_year) :
    readableDate t = readableDateStripped t := by
  have hp1 := hour12_pos t.tm_hour
  have hp2 := hour12_le t.tm_hour
  have hamp : stripSpaceZero
      (' ' :: (if t.tm_hour < 12 then "AM" else "PM").data) =
      ' ' :: (if t.tm_hour < 12 then "AM" else "PM").data := by
    by_cases hb : t.tm_hour < 12
    · rw [if_pos hb]
      decide
    · rw [if_neg hb]
      decide
  have htail3 : stripSpaceZero (':' :: (pad2 t.tm_min ++ (':' :: (pad2 t.tm_sec ++
        (' ' :: (if t.tm_hour < 12 then "AM" else "PM").data))))) =
      ':' :: (pad2 t.tm_min ++ (':' :: (pad2 t.tm_sec ++
        (' ' :: (if t.tm_hour < 12 then "AM" else "PM").data)))) := by
    rw [strip_cons_ne_space ':' (by decide),
        strip_clean_append _ _ (pad2_ne_space t.tm_min),
        strip_cons_ne_space ':' (by decide),
        strip_clean_append _ _ (pad2_ne_space t.tm_sec), hamp]
  have htail2 : stripSpaceZero (' ' :: (pad2 (hour12 t.tm_hour) ++
        (':' :: (pad2 t.tm_min ++ (':' :: (pad2 t.tm_sec ++
          (' ' :: (if t.tm_hour < 12 then "AM" else "PM").data))))))) =
      ' ' :: (unpad2 (hour12 t.tm_hour) ++
        (':' :: (pad2 t.tm_min ++ (':' :: (pad2 t.tm_sec ++
          (' ' :: (if t.tm_hour < 12 then "AM" else "PM").data)))))) := by
    by_cases hh : hour12 t.tm_hour < 10
    · rw [strip_space_pad2_lt _ hh, htail3]
      simp [unpad2, hh]
    · rw [strip_space_pad2_ge _ (by omega) (by omega), htail3]
      simp [unpad2, hh]
  have htail1 : stripSpaceZero (',' :: ' ' :: (natDecimalChars t.tm_year ++
        (' ' :: (pad2 (hour12 t.tm_hour) ++
          (':' :: (pad2 t.tm_min ++ (':' :: (pad2 t.tm_sec ++
            (' ' :: (if t.tm_hour < 12 then "AM" else "PM").data))))))))) =
      ',' :: ' ' :: (natDecimalChars t.tm_year ++
        (' ' :: (unpad2 (hour12 t.tm_hour) ++
          (':' :: (pad2 t.tm_min ++ (':' :: (pad2 t.tm_sec ++
            (' ' :: (if t.tm_hour < 12 then "AM" else "PM").data)))))))) := by
    rw [strip_cons_ne_space ',' (by decide), strip_space_ndc _ hyear, htail2]
  have hdayeq : stripSpaceZero (' ' :: (pad2 t.tm_mday ++
        (',' :: ' ' :: (natDecimalChars t.tm_year ++
          (' ' :: (pad2 (hour12 t.tm_hour) ++
            (':' :: (pad2 t.tm_min ++ (':' :: (pad2 t.tm_sec ++
              (' ' :: (if t.tm_hour < 12 then "AM" else "PM").data))))))))))) =
      ' ' :: (unpad2 t.tm_mday ++
        (',' :: ' ' :: (natDecimalChars t.tm_year ++
          (' ' :: (unpad2 (hour12 t.tm_hour) ++
            (':' :: (pad2 t.tm_min ++ (':' :: (pad2 t.tm_sec ++
              (' ' :: (if t.tm_hour < 12 then "AM" else "PM").data)))))))))) := by
    by_cases hd : t.tm_mday < 10
    · rw [strip_space_pad2_lt _ hd, htail1]
      simp [unpad2, hd]
    · rw [strip_space_pad2_ge _ (by omega) (by omega), htail1]
      simp [unpad2, hd]
  unfold readableDate readableDateStripped strftimeFmt
  congr 1
  simp only [List.append_assoc, List.cons_append]
  rw [strip_clean_append _ _ (monthAbbr_ne_space t.tm_mon (by omega)), hdayeq]

/-- C5, counterexample.  The claim says only the day-of-month's leading
zero is stripped and other leading zeros, such as the hour's, are
preserved, predicting "Mar 7, 2017 09:05:04 AM" for 2017-03-07 09:05:04
local time.  `replace(" 0", " ")` also strips the hour's zero. -/
theorem C5_cex_hour_zero_stripped :
    readableDate ⟨2017, 3, 7, 9, 5, 4⟩ = "Mar 7, 2017 9:05:04 AM" ∧
    readableDate ⟨2017, 3, 7, 9, 5, 4⟩ ≠ "Mar 7, 2017 09:05:04 AM" := by
  constructor
  · decide
  · decide

/-- C5, amended.  For every row, `readable_date` is the local-time
"Mon DD, YYYY HH:MM:SS AM/PM" string in which every zero immediately
following a space is stripped: the day-of-month's leading zero AND the
hour's leading zero are both removed (minutes and seconds keep theirs,
being preceded by colons). -/
theorem C5_readable_strips_day_and_hour (localtime : Int → Tm) (row : MessageRow)
    (tbl : Option (List (String × String))) (region : Option String)
    (senders : Option (List String)) (t : Tm)
    (ht : localtime (Int.fdiv (created_on_to_timestamp_ms row.CreatedOn) 1000) = t)
    (hmon : t.tm_mon ≤ 12) (hday : t.tm_mday ≤ 31) (hyear : 1 ≤ t.tm_year) :
    ∃ attrs warns,
      message_row_to_attrs localtime row (Option.map Sum.inr tbl) region senders =
        Except.ok (attrs, warns) ∧
      getAttr attrs ("readable_date") = some (some (readableDateStripped t)) := by
  refine ⟨_, _, message_row_to_attrs_ok localtime row tbl region senders, ?_⟩
  rw [getAttr_readable_date, ht, readableDate_eq_stripped t hmon hday hyear]

/-- C5, witness for the amended theorem at a concrete row and time. -/
theorem C5_readable_strips_day_and_hour_w :
    ∃ attrs warns,
      message_row_to_attrs localtime0
          ⟨621672192000000000, "5551234567", "5550001111", 2, "hi", 1, 0⟩
          (Option.map Sum.inr (none : Option (List (String × String))))
          (some ("US")) none =
        Except.ok (attrs, warns) ∧
      getAttr attrs ("readable_date") =
        some (some (readableDateStripped ⟨1970, 1, 1, 0, 0, 0⟩)) :=
  C5_readable_strips_day_and_hour localtime0
    ⟨621672192000000000, "5551234567", "5550001111", 2, "hi", 1, 0⟩
    none (some ("US")) none ⟨1970, 1, 1, 0, 0, 0⟩ rfl (by decide) (by decide)
    (by decide)

/-- C7.  A row is emitted as sent (`type` `"2"`) exactly when
`SourceType == 3` or the normalized sender belongs to the sender set, and
as received (`type` `"1"`) otherwise; the counterpart `address` is the
normalized `ToAddress` when sent and the normalized sender when
received. -/
theorem C7_classifier_sent_iff (localtime : Int → Tm) (row : MessageRow)
    (tbl : Option (List (String × String))) (region : Option String)
    (senders : Option (List String)) :
    ∃ attrs warns,
      message_row_to_attrs localtime row (Option.map Sum.inr tbl) region senders =
        Except.ok (attrs, warns) ∧
      (getAttr attrs ("type") = some (some ("2")) ↔
        (row.SourceType = 3 ∨
          senderMatch senders (normalize_phone_num row.Sender region) = true)) ∧
      (getAttr attrs ("type") = some (some ("1")) ↔
        ¬(row.SourceType = 3 ∨
          senderMatch senders (normalize_phone_num row.Sender region) = true)) ∧
      getAttr attrs ("address") = some (some
        (if row.SourceType = 3 ∨
            senderMatch senders (normalize_phone_num row.Sender region) = true
         then normalize_phone_num row.ToAddress region
         else normalize_phone_num row.Sender region)) := by
  refine ⟨_, _, message_row_to_attrs_ok localtime row tbl region senders, ?_, ?_, ?_⟩ <;>
    by_cases h : row.SourceType = 3 ∨
      senderMatch senders (normalize_phone_num row.Sender region) = true
  · have hb : (row.SourceType == 3 ||
        senderMatch senders (normalize_phone_num row.Sender region)) = true := by
      rcases h with h | h <;> simp [h]
    rw [getAttr_type]
    simp [classify, hb, h]
  · have hb : (row.SourceType == 3 ||
        senderMatch senders (normalize_phone_num row.Sender region)) = false := by
      rcases not_or.mp h with ⟨h1, h2⟩
      simp only [Bool.not_eq_true] at h2
      simp [h1, h2]
    rw [getAttr_type]
    simp [classify, hb, h]
  · have hb : (row.SourceType == 3 ||
        senderMatch senders (normalize_phone_num row.Sender region)) = true := by
      rcases h with h | h <;> simp [h]
    rw [getAttr_type]
    simp [classify, hb, h]
  · have hb : (row.SourceType == 3 ||
        senderMatch senders (normalize_phone_num row.Sender region)) = false := by
      rcases not_or.mp h with ⟨h1, h2⟩
      simp only [Bool.not_eq_true] at h2
      simp [h1, h2]
    rw [getAttr_type]
    simp [classify, hb, h]
  · have hb : (row.SourceType == 3 ||
        senderMatch senders (normalize_phone_num row.Sender region)) = true := by
      rcases h with h | h <;> simp [h]
    rw [getAttr_address]
    simp [classify, hb, h]
  · have hb : (row.SourceType == 3 ||
        senderMatch senders (normalize_phone_num row.Sender region)) = false := by
      rcases not_or.mp h with ⟨h1, h2⟩
      simp only [Bool.not_eq_true] at h2
      simp [h1, h2]
    rw [getAttr_address]
    simp [classify, hb, h]

/-- C8.  A row treated as received whose `SourceType` is neither 2 nor 3
yields exactly one "unrecognized SourceType" warning, is still emitted
with `type` `"1"`, and the assembler returns normally (no error). -/
theorem C8_unrecognized_source_type_warns_once (localtime : Int → Tm)
    (row : MessageRow) (tbl : Option (List (String × String)))
    (region : Option String) (senders : Option (List String))
    (h2 : row.SourceType ≠ 2) (h3 : row.SourceType ≠ 3)
    (hs : senderMatch senders (normalize_phone_num row.Sender region) = false) :
    ∃ attrs warns,
      message_row_to_attrs localtime row (Option.map Sum.inr tbl) region senders =
        Except.ok (attrs, warns) ∧
      getAttr attrs ("type") = some (some ("1")) ∧
      (warns.filter is_unrecognized_warn).length = 1 := by
  have hb : (row.SourceType == 3 ||
      senderMatch senders (normalize_phone_num row.Sender region)) = false := by
    simp [h3, hs]
  refine ⟨_, _, message_row_to_attrs_ok localtime row tbl region senders, ?_, ?_⟩
  · rw [getAttr_type]
    simp [classify, hb]
  · have hc : (classify row.SourceType (normalize_phone_num row.Sender region)
        (normalize_phone_num row.ToAddress region) senders).2.2 =
        [Warn.unrecognizedSourceType row.SourceType] := by
      simp [classify, hb, h2]
    rw [hc]
    cases tbl with
    | none => simp [contact_ok, is_unrecognized_warn]
    | some tb =>
      cases hg : dictGet tb (classify row.SourceType
          (normalize_phone_num row.Sender region)
          (normalize_phone_num row.ToAddress region) senders).2.1 with
      | none => simp [contact_ok, hg, is_unrecognized_warn]
      | some nm => simp [contact_ok, hg, is_unrecognized_warn]

/-- C8, witness: `SourceType = 9` with no sender set and no contact
table. -/
theorem C8_unrecognized_source_type_warns_once_w :
    ∃ attrs warns,
      message_row_to_attrs localtime0
          ⟨621672192000000000, "5551234567", "5550001111", 9, "hi", 1, 0⟩
          (Option.map Sum.inr (none : Option (List (String × String))))
          (some ("US")) none =
        Except.ok (attrs, warns) ∧
      getAttr attrs ("type") = some (some ("1")) ∧
      (warns.filter is_unrecognized_warn).length = 1 :=
  C8_unrecognized_source_type_warns_once localtime0
    ⟨621672192000000000, "5551234567", "5550001111", 9, "hi", 1, 0⟩
    none (some ("US")) none (by decide) (by decide) (by decide)

/-- C10.  A row with an unrecognized `SourceType` (neither 2 nor 3) whose
normalized sender is in the sender set is classified as sent and no
"unrecognized SourceType" warning is emitted: the warning check sits in
the received branch only, so the override suppresses it. -/
theorem C10_sender_override_suppresses_warning (localtime : Int → Tm)
    (row : MessageRow) (tbl : Option (List (String × String)))
    (region : Option String) (ss : List String)
    (h2 : row.SourceType ≠ 2) (h3 : row.SourceType ≠ 3)
    (hs : senderMatch (some ss) (normalize_phone_num row.Sender region) = true) :
    ∃ attrs warns,
      message_row_to_attrs localtime row (Option.map Sum.inr tbl) region
          (some ss) =
        Except.ok (attrs, warns) ∧
      getAttr attrs ("type") = some (some ("2")) ∧
      warns.filter is_unrecognized_warn = [] := by
  have hb : (row.SourceType == 3 ||
      senderMatch (some ss) (normalize_phone_num row.Sender region)) = true := by
    simp [hs]
  refine ⟨_, _, message_row_to_attrs_ok localtime row tbl region (some ss), ?_, ?_⟩
  · rw [getAttr_type]
    simp [classify, hb]
  · have hc : (classify row.SourceType (normalize_phone_num row.Sender region)
        (normalize_phone_num row.ToAddress region) (some ss)).2.2 = [] := by
      simp [classify, hb]
    rw [hc]
    cases tbl with
    | none => simp [contact_ok, is_unrecognized_warn]
    | some tb =>
      cases hg : dictGet tb (classify row.SourceType
          (normalize_phone_num row.Sender region)
          (normalize_phone_num row.ToAddress region) (some ss)).2.1 with
      | none => simp [contact_ok, hg, is_unrecognized_warn]
      | some nm => simp [contact_ok, hg, is_unrecognized_warn]

/-- C10, witness: `SourceType = 9`, sender present in the set.  The
sent classification holds and the warning list has no SourceType
warning. -/
theorem C10_sender_override_suppresses_warning_w :
    ∃ attrs warns,
      message_row_to_attrs localtime0
          ⟨621672192000000000, "5551234567", "5550001111", 9, "hi", 1, 0⟩
          (Option.map Sum.inr (none : Option (List (String × String))))
          (some ("US")) (some [("+15551234567" : String)]) =
        Except.ok (attrs, warns) ∧
      getAttr attrs ("type") = some (some ("2")) ∧
      warns.filter is_unrecognized_warn = [] :=
  C10_sender_override_suppresses_warning localtime0
    ⟨621672192000000000, "5551234567", "5550001111", 9, "hi", 1, 0⟩
    none (some ("US")) [("+15551234567" : String)]
    (by decide) (by decide) (by decide)

/-- C1 (code bug).  With no contact table (`num2name = None`) the
assembled record still CONTAINS the `contact_name` key, bound to Python
`None` — the record dict literal of lines 143-160 always lists the key,
and line 136 leaves `contact_name = None`.  The claim and spec say the
key is absent from the record in that case.  (Serializing such a record
later crashes ElementTree with "cannot serialize None", so omission is
clearly the intent.)  Evaluating the embedded assembler at a concrete row
exhibits the `("contact_name", none)` entry. -/
theorem C1_contact_name_present_with_none :
    message_row_to_attrs localtime0
        ⟨621672192000000000, "(555) 123-4567", "555-000-1111", 2, "hello", 1, 0⟩
        none (some ("US")) none =
      Except.ok
        ([(("protocol" : String), some ("0")),
          (("address" : String), some ("+15551234567")),
          (("date" : String), some ("0")),
          (("type" : String), some ("1")),
          (("subject" : String), some ("null")),
          (("body" : String), some ("hello")),
          (("toa" : String), some ("null")),
          (("sc_toa" : String), some ("null")),
          (("service_center" : String), some ("null")),
          (("read" : String), some ("1")),
          (("status" : String), some ("-1")),
          (("locked" : String), some ("0")),
          (("date_sent" : String), some ("0")),
          (("readable_date" : String), some ("Jan 1, 1970 12:00:00 AM")),
          (("contact_name" : String), (none : Option String))], []) := rfl

/-- C2 (code bug).  On a malformed contacts line `_read_contacts` merely
returns the `int` 1 (no exception), and `main` never checks the value: on
an empty `Message` table the run then completes successfully and writes a
document, and with one row the transformation of that row is entered and
dies with an `AttributeError` on `num2name.get` — not a contacts-loading
abort.  The claim says the malformed line is a hard error that aborts the
run before any row transformation. -/
theorem C2_malformed_contacts_does_not_abort :
    read_contacts [("5551234567").data] none = Sum.inl 1 ∧
    run_pipeline localtime0 (some [("5551234567").data]) [] (some ("US")) none =
      Except.ok [] ∧
    run_pipeline localtime0 (some [("5551234567").data])
        [⟨621672192000000000, "5551234567", "5550001111", 2, "hi", 1, 0⟩]
        (some ("US")) none =
      Except.error PyErr.attributeError :=
  ⟨rfl, rfl, rfl⟩

/-- C4 (code bug).  Under Python 2 (`/` of ints is integer division) the
converter matches the claim: at the epoch tick count the result is 0, and
at ticks `621672192000009999` truncating division also gives 0.  Under
Python 3 `/` is float true division: the exact quotient
`62167219200000.9999` rounds to the double `62167219200001.0`, so the
record's `date` becomes 1, not 0 — the division is not integer truncating
division there. -/
theorem C4_py3_true_division_divergence :
    created_on_to_timestamp_ms 621672192000000000 = 0 ∧
    created_on_to_timestamp_ms 621672192000009999 = 0 ∧
    py3_date_ms 621672192000009999 = 1 ∧
    (message_row_to_attrs localtime0
        ⟨621672192000000000, "5551234567", "5550001111", 2, "hi", 1, 0⟩
        none none none).map (fun res => getAttr res.1 ("date")) =
      Except.ok (some (some ("0"))) :=
  ⟨rfl, rfl, rfl, rfl⟩

/-- C6 (code bug).  `main` calls `_read_contacts(args.contacts)` without
passing `args.region` (line 240), so contact keys are normalized with
`region=None` while message addresses use the configured region: with
region `US` the contacts line `5551234567 Alice` is stored under
`+5551234567`, a message from `5551234567` resolves to address
`+15551234567`, the lookup misses, and the contact becomes `(Unknown)`
with a miss warning — the claim says the two normalizations agree. -/
theorem C6_contacts_region_mismatch :
    read_contacts [("5551234567 Alice").data] none =
      Sum.inr [(("+5551234567" : String), ("Alice" : String))] ∧
    normalize_phone_num ("5551234567") (some ("US")) = "+15551234567" ∧
    (message_row_to_attrs localtime0
        ⟨621672192000000000, "5551234567", "5550001111", 2, "hi", 1, 0⟩
        (some (read_contacts [("5551234567 Alice").data] none)) (some ("US"))
        none).map (fun res => (getAttr res.1 ("contact_name"), res.2)) =
      Except.ok (some (some ("(Unknown)")), [Warn.contactMiss ("+15551234567")]) :=
  ⟨rfl, rfl, rfl⟩
